import Mathlib

/-!
Verification of the SIR epidemic notebook
(`src/SIR_models/.ipynb_checkpoints/SIR_model-checkpoint.ipynb`).

The notebook defines a three-compartment SIR model: hard-coded constants
`N = 1000`, `I0, R0 = 1, 0`, `S0 = N - I0 - R0`, `beta, gamma = 0.2, 1/10`,
a derivative function `deriv`, and an unconditional call
`odeint(deriv, y0, t, args=(N, beta, gamma))` over a uniform time grid.

Real scalars are embedded as rationals (exact arithmetic).  A state is the
triple `(S, I, R)`.
-/

namespace SIR

/-- A compartment state `(S, I, R)`. -/
abbrev SIRState := ℚ × ℚ × ℚ

/-- The derivative function of the notebook:
```
def deriv(y, t, N, beta, gamma):
    S, I, R = y
    dSdt = -beta * S * I / N
    dIdt = beta * S * I / N - gamma * I
    dRdt = gamma * I
    return dSdt, dIdt, dRdt
```
The argument `t` is received (odeint passes the current time) but never
read, exactly as in the source. -/
def deriv (y : SIRState) (t : ℚ) (N beta gamma : ℚ) : SIRState :=
  (-beta * y.1 * y.2.1 / N,
   beta * y.1 * y.2.1 / N - gamma * y.2.1,
   gamma * y.2.1)

/-- The right-hand side exactly as the spec words it:
`dS/dt = −β·S·I/N`, `dI/dt = β·S·I/N − γ·I`, `dR/dt = γ·I`.
Stated separately from `deriv` so that the agreement of code and spec is a
theorem, not a definition. -/
def specRHS (S I R : ℚ) (N beta gamma : ℚ) : SIRState :=
  (-(beta * S * I / N),
   beta * S * I / N - gamma * I,
   gamma * I)

/-- The initial-conditions vector of the notebook: `S0 = N - I0 - R0`,
`y0 = S0, I0, R0`. -/
def y0 (N I0 R0 : ℚ) : SIRState :=
  (N - I0 - R0, I0, R0)

/-- Python raises `ZeroDivisionError` when a denominator is zero; `deriv`
divides by `N` twice with no guard.  This variant makes the implicit
fallibility explicit: it returns `none` exactly when the divisions of
`deriv` would raise. -/
def derivChecked (y : SIRState) (t : ℚ) (N beta gamma : ℚ) : Option SIRState :=
  if N = 0 then none else some (deriv y t N beta gamma)

/-- Modelled from the spec: the integrator itself (`scipy.integrate.odeint`)
is a library routine, not code of this repository.  The spec's design notes
sanction "a simple fixed-step method directly on the output grid" as a
faithful realisation; this is one forward-Euler step of size `h` of the SIR
right-hand side, taken at time `t`. -/
def eulerStep (h : ℚ) (N beta gamma : ℚ) (t : ℚ) (y : SIRState) : SIRState :=
  (y.1 + h * (deriv y t N beta gamma).1,
   y.2.1 + h * (deriv y t N beta gamma).2.1,
   y.2.2 + h * (deriv y t N beta gamma).2.2)

/-- Modelled from the spec: the sampled trajectory on the uniform grid
`0, h, 2h, …`, starting from state `y`, advanced by `eulerStep`.
`trajectory h N beta gamma y k` is the sampled state at grid index `k`. -/
def trajectory (h : ℚ) (N beta gamma : ℚ) (y : SIRState) : ℕ → SIRState
  | 0 => y
  | k + 1 => eulerStep h N beta gamma ((k : ℚ) * h) (trajectory h N beta gamma y k)

/-- A run configuration: the five scalar constants the notebook hard-codes. -/
structure Config where
  N : ℚ
  I0 : ℚ
  R0 : ℚ
  beta : ℚ
  gamma : ℚ
deriving DecidableEq

/-- The validity conditions the spec imposes on inputs: positive population,
positive rates, non-negative initial counts not exceeding the population. -/
def validConfig (c : Config) : Prop :=
  0 < c.N ∧ 0 < c.beta ∧ 0 < c.gamma ∧ 0 ≤ c.I0 ∧ 0 ≤ c.R0 ∧ c.I0 + c.R0 ≤ c.N

instance (c : Config) : Decidable (validConfig c) := by
  unfold validConfig
  infer_instance

/-- The output sequence of one run: the trajectory sampled at grid indices
`0, …, n`, started from the notebook's initial-conditions vector. -/
def sirOutput (c : Config) (h : ℚ) (n : ℕ) : List SIRState :=
  (List.range (n + 1)).map (trajectory h c.N c.beta c.gamma (y0 c.N c.I0 c.R0))

/-- Modelled from the spec: the notebook's entry pipeline.  The source sets
the constants and immediately calls the integrator — it contains no
validation code whatsoever — so this definition mirrors the unconditional
pipeline.  A rejection with a descriptive message would be `Except.error`;
no branch produces one. -/
def runSIR (c : Config) (h : ℚ) (n : ℕ) : Except String (List SIRState) :=
  Except.ok (sirOutput c h n)

/-- The hard-coded configuration of the notebook: `N = 1000`, `I0 = 1`,
`R0 = 0`, `beta = 0.2`, `gamma = 1/10`. -/
def notebookConfig : Config :=
  ⟨1000, 1, 0, 1/5, 1/10⟩

/-- States reachable from a valid initial condition: non-negative
compartments summing to the population. -/
def goodState (N : ℚ) (y : SIRState) : Prop :=
  0 ≤ y.1 ∧ 0 ≤ y.2.1 ∧ 0 ≤ y.2.2 ∧ y.1 + y.2.1 + y.2.2 = N

/-- The three components of one Euler step sum to what they summed to
before the step: the right-hand side is conservative. -/
theorem eulerStep_sum (h N beta gamma t : ℚ) (y : SIRState) :
    (eulerStep h N beta gamma t y).1 + (eulerStep h N beta gamma t y).2.1 +
      (eulerStep h N beta gamma t y).2.2 = y.1 + y.2.1 + y.2.2 := by
  simp only [eulerStep, deriv]
  ring

/-- A state with no infected individuals is a fixed point of the step. -/
theorem eulerStep_fix (h N beta gamma t : ℚ) (y : SIRState)
    (hy : y.2.1 = 0) : eulerStep h N beta gamma t y = y := by
  simp [eulerStep, deriv, Prod.ext_iff, hy]

/-- One Euler step from a good state, under the step-size bounds
`h·β ≤ 1` and `h·γ ≤ 1`, yields a good state with `S` not increased and
`R` not decreased. -/
theorem eulerStep_good (h N beta gamma t : ℚ) (y : SIRState)
    (hN : 0 < N) (hh : 0 ≤ h) (hb : 0 ≤ beta) (hg : 0 ≤ gamma)
    (hhb : h * beta ≤ 1) (hhg : h * gamma ≤ 1) (hy : goodState N y) :
    goodState N (eulerStep h N beta gamma t y) ∧
      (eulerStep h N beta gamma t y).1 ≤ y.1 ∧
      y.2.2 ≤ (eulerStep h N beta gamma t y).2.2 := by
  obtain ⟨hS, hI, hR, hsum⟩ := hy
  have hIN : y.2.1 ≤ N := by linarith
  have hq : 0 ≤ y.1 * y.2.1 / N := div_nonneg (mul_nonneg hS hI) hN.le
  have hq' : 0 ≤ y.1 * y.2.1 / N * y.2.1 := mul_nonneg hq hI
  have hqS : y.1 * y.2.1 / N ≤ y.1 := by
    rw [div_le_iff₀ hN]
    nlinarith
  have hSstep : h * beta * (y.1 * y.2.1 / N) ≤ y.1 :=
    le_trans (mul_le_of_le_one_left hq hhb) hqS
  have hSquot : 0 ≤ h * beta * (y.1 * y.2.1 / N) :=
    mul_nonneg (mul_nonneg hh hb) hq
  have hInew : 0 ≤ y.2.1 + h * (beta * y.1 * y.2.1 / N - gamma * y.2.1) := by
    have h1 : 0 ≤ y.2.1 * (1 - h * gamma) := mul_nonneg hI (by linarith)
    have heqI : y.2.1 + h * (beta * y.1 * y.2.1 / N - gamma * y.2.1)
        = y.2.1 * (1 - h * gamma) + h * beta * (y.1 * y.2.1 / N) := by ring
    rw [heqI]
    linarith
  have hRstep : 0 ≤ h * (gamma * y.2.1) := mul_nonneg hh (mul_nonneg hg hI)
  refine ⟨⟨?_, ?_, ?_, ?_⟩, ?_, ?_⟩
  · show 0 ≤ y.1 + h * (-beta * y.1 * y.2.1 / N)
    have heq : y.1 + h * (-beta * y.1 * y.2.1 / N)
        = y.1 - h * beta * (y.1 * y.2.1 / N) := by ring
    rw [heq]
    linarith
  · show 0 ≤ y.2.1 + h * (beta * y.1 * y.2.1 / N - gamma * y.2.1)
    exact hInew
  · show 0 ≤ y.2.2 + h * (gamma * y.2.1)
    linarith
  · rw [eulerStep_sum]
    exact hsum
  · show y.1 + h * (-beta * y.1 * y.2.1 / N) ≤ y.1
    have heq : y.1 + h * (-beta * y.1 * y.2.1 / N)
        = y.1 - h * beta * (y.1 * y.2.1 / N) := by ring
    rw [heq]
    linarith
  · show y.2.2 ≤ y.2.2 + h * (gamma * y.2.1)
    linarith

/-- Good states are preserved along the whole sampled trajectory. -/
theorem trajectory_good (h N beta gamma : ℚ) (y : SIRState)
    (hN : 0 < N) (hh : 0 ≤ h) (hb : 0 ≤ beta) (hg : 0 ≤ gamma)
    (hhb : h * beta ≤ 1) (hhg : h * gamma ≤ 1) (hy : goodState N y) :
    ∀ k, goodState N (trajectory h N beta gamma y k) := by
  intro k
  induction k with
  | zero => exact hy
  | succ k ih =>
      exact (eulerStep_good h N beta gamma ((k : ℚ) * h)
        (trajectory h N beta gamma y k) hN hh hb hg hhb hhg ih).1

/-- C1: the derivative function, applied to a state `(S, I, R)` with
parameters `(N, beta, gamma)` and any time `t`, returns exactly the triple
`(−β·S·I/N, β·S·I/N − γ·I, γ·I)` of the spec, for every state and every
parameter setting with `N ≠ 0`. -/
theorem deriv_agrees_with_specRHS (S I R t N beta gamma : ℚ) (hN : N ≠ 0) :
    deriv (S, I, R) t N beta gamma = specRHS S I R N beta gamma := by
  simp only [deriv, specRHS, Prod.mk.injEq, and_true]
  ring

/-- Witness for C1 at the notebook state `(999, 1, 0)` and parameters. -/
theorem deriv_agrees_with_specRHS_witness :
    (1000 : ℚ) ≠ 0 ∧
      deriv (999, 1, 0) 0 1000 (1/5) (1/10) = specRHS 999 1 0 1000 (1/5) (1/10) :=
  ⟨by norm_num, deriv_agrees_with_specRHS 999 1 0 0 1000 (1/5) (1/10) (by norm_num)⟩

/-- C2: for every state, time and parameter setting with `N ≠ 0`, the three
components returned by the derivative function sum to zero exactly. -/
theorem deriv_components_sum_to_zero (y : SIRState) (t N beta gamma : ℚ)
    (hN : N ≠ 0) :
    (deriv y t N beta gamma).1 + (deriv y t N beta gamma).2.1 +
      (deriv y t N beta gamma).2.2 = 0 := by
  simp only [deriv]
  ring

/-- Witness for C2 at the notebook state `(999, 1, 0)` and parameters. -/
theorem deriv_components_sum_to_zero_witness :
    (1000 : ℚ) ≠ 0 ∧
      (deriv (999, 1, 0) 0 1000 (1/5) (1/10)).1 +
        (deriv (999, 1, 0) 0 1000 (1/5) (1/10)).2.1 +
        (deriv (999, 1, 0) 0 1000 (1/5) (1/10)).2.2 = 0 :=
  ⟨by norm_num, deriv_components_sum_to_zero (999, 1, 0) 0 1000 (1/5) (1/10) (by norm_num)⟩

/-- C3: for every valid configuration (positive population and rates,
non-negative initial compartments summing to `N` — the code's `S0` is
`N − I0 − R0`, so the sum condition is `0 ≤ N − I0 − R0` together with
`0 ≤ I0`, `0 ≤ R0`), every grid index of the integrated trajectory has
`S + I + R = N` exactly: the sum is a linear invariant of the right-hand
side, preserved exactly by the embedded fixed-step integrator. -/
theorem trajectory_conserves_population (h N I0 R0 beta gamma : ℚ)
    (hN : 0 < N) (hb : 0 < beta) (hg : 0 < gamma)
    (hS0 : 0 ≤ N - I0 - R0) (hI0 : 0 ≤ I0) (hR0 : 0 ≤ R0) (k : ℕ) :
    (trajectory h N beta gamma (y0 N I0 R0) k).1 +
      (trajectory h N beta gamma (y0 N I0 R0) k).2.1 +
      (trajectory h N beta gamma (y0 N I0 R0) k).2.2 = N := by
  induction k with
  | zero =>
      show (N - I0 - R0) + I0 + R0 = N
      ring
  | succ k ih =>
      rw [trajectory, eulerStep_sum]
      exact ih

/-- Witness for C3: the notebook configuration, step 1 day, grid index 5. -/
theorem trajectory_conserves_population_witness :
    (trajectory 1 1000 (1/5) (1/10) (y0 1000 1 0) 5).1 +
      (trajectory 1 1000 (1/5) (1/10) (y0 1000 1 0) 5).2.1 +
      (trajectory 1 1000 (1/5) (1/10) (y0 1000 1 0) 5).2.2 = 1000 :=
  trajectory_conserves_population 1 1000 1 0 (1/5) (1/10)
    (by norm_num) (by norm_num) (by norm_num) (by norm_num) (by norm_num) (by norm_num) 5

/-- C4 (code evaluated at the failing input): the notebook performs no input
validation.  The configuration `N = −1, I0 = 1, R0 = 0, β = 1/5, γ = 1/10`
violates the spec's validity conditions, yet the run never produces an
error: integration is invoked unconditionally. -/
theorem runSIR_never_rejects :
    ¬ validConfig ⟨-1, 1, 0, 1/5, 1/10⟩ ∧
      ∀ msg, runSIR ⟨-1, 1, 0, 1/5, 1/10⟩ 1 2 ≠ Except.error msg := by
  constructor
  · intro hc
    exact absurd hc.1 (by norm_num)
  · intro msg hmsg
    simp [runSIR] at hmsg

/-- C5: the trajectory at the first grid point is exactly
`(N − I0 − R0, I0, R0)`; in particular, for the hard-coded configuration
`N = 1000, I0 = 1, R0 = 0` it is exactly `(999, 1, 0)`. -/
theorem trajectory_initial_state (h N I0 R0 beta gamma : ℚ) :
    trajectory h N beta gamma (y0 N I0 R0) 0 = (N - I0 - R0, I0, R0) ∧
      trajectory h 1000 (1/5) (1/10) (y0 1000 1 0) 0 = (999, 1, 0) := by
  constructor
  · rfl
  · show y0 1000 1 0 = (999, 1, 0)
    unfold y0
    norm_num

/-- C6 (counterexample): a valid configuration — `N = 1`, `beta = 1`,
`gamma = 3`, non-negative initial compartments `S0 = 0, I0 = 1, R0 = 0` —
on a uniform grid of step 1, for which the sampled `R` strictly decreases
from grid index 1 to grid index 2: with the step `h·γ = 3 > 1`, one Euler
step drives `I` negative and `R` then shrinks. -/
theorem sampled_R_decreases_counterexample :
    (0 : ℚ) < 1 ∧ (0 : ℚ) < 1 ∧ (0 : ℚ) < 3 ∧
      (0 : ℚ) ≤ 1 - 1 - 0 ∧ (0 : ℚ) ≤ 1 ∧ (0 : ℚ) ≤ 0 ∧
      ¬ ((trajectory 1 1 1 3 (y0 1 1 0) 1).2.2
          ≤ (trajectory 1 1 1 3 (y0 1 1 0) 2).2.2) := by
  refine ⟨by norm_num, by norm_num, by norm_num, by norm_num, by norm_num, le_refl 0, ?_⟩
  have e1 : trajectory 1 1 1 3 (y0 1 1 0) 1 = (0, -2, 3) := by
    norm_num [trajectory, eulerStep, deriv, y0, Prod.ext_iff]
  have e2 : trajectory 1 1 1 3 (y0 1 1 0) 2 = (0, 4, -3) := by
    norm_num [trajectory, eulerStep, deriv, y0, Prod.ext_iff]
  rw [e1, e2]
  norm_num

/-- C6 (amended): for every valid configuration (positive population and
rates, non-negative initial compartments with `I0 + R0 ≤ N`) and every
uniform grid whose step `h` satisfies `0 ≤ h`, `h·β ≤ 1` and `h·γ ≤ 1`,
the sampled `S` is non-increasing and the sampled `R` is non-decreasing
across every grid index. -/
theorem trajectory_S_nonincreasing_R_nondecreasing (h N I0 R0 beta gamma : ℚ)
    (hN : 0 < N) (hb : 0 < beta) (hg : 0 < gamma)
    (hS0 : 0 ≤ N - I0 - R0) (hI0 : 0 ≤ I0) (hR0 : 0 ≤ R0)
    (hh : 0 ≤ h) (hhb : h * beta ≤ 1) (hhg : h * gamma ≤ 1) (k : ℕ) :
    (trajectory h N beta gamma (y0 N I0 R0) (k + 1)).1
        ≤ (trajectory h N beta gamma (y0 N I0 R0) k).1 ∧
      (trajectory h N beta gamma (y0 N I0 R0) k).2.2
        ≤ (trajectory h N beta gamma (y0 N I0 R0) (k + 1)).2.2 := by
  have hy : goodState N (y0 N I0 R0) := by
    refine ⟨hS0, hI0, hR0, ?_⟩
    show N - I0 - R0 + I0 + R0 = N
    ring
  have hgood := trajectory_good h N beta gamma (y0 N I0 R0) hN hh hb.le hg.le hhb hhg hy k
  have hstep := eulerStep_good h N beta gamma ((k : ℚ) * h)
    (trajectory h N beta gamma (y0 N I0 R0) k) hN hh hb.le hg.le hhb hhg hgood
  exact ⟨hstep.2.1, hstep.2.2⟩

/-- Witness for the amended C6: the notebook configuration with step 1 day
(`h·β = 1/5 ≤ 1`, `h·γ = 1/10 ≤ 1`) at the first grid step. -/
theorem trajectory_monotone_witness :
    (0 : ℚ) < 1000 ∧ (0 : ℚ) < 1/5 ∧ (0 : ℚ) < 1/10 ∧
      (0 : ℚ) ≤ 1000 - 1 - 0 ∧ (0 : ℚ) ≤ 1 ∧ (0 : ℚ) ≤ 0 ∧ (0 : ℚ) ≤ 1 ∧
      (1 : ℚ) * (1/5) ≤ 1 ∧ (1 : ℚ) * (1/10) ≤ 1 ∧
      ((trajectory 1 1000 (1/5) (1/10) (y0 1000 1 0) (0 + 1)).1
          ≤ (trajectory 1 1000 (1/5) (1/10) (y0 1000 1 0) 0).1 ∧
        (trajectory 1 1000 (1/5) (1/10) (y0 1000 1 0) 0).2.2
          ≤ (trajectory 1 1000 (1/5) (1/10) (y0 1000 1 0) (0 + 1)).2.2) :=
  ⟨by norm_num, by norm_num, by norm_num, by norm_num, by norm_num, le_refl 0,
    by norm_num, by norm_num, by norm_num,
    trajectory_S_nonincreasing_R_nondecreasing 1 1000 1 0 (1/5) (1/10)
      (by norm_num) (by norm_num) (by norm_num) (by norm_num) (by norm_num)
      (le_refl 0) (by norm_num) (by norm_num) (by norm_num) 0⟩

/-- C7: a state with `I = 0` has derivative `(0, 0, 0)` for every time and
parameter setting, and once the sampled trajectory reaches a state with
`I = 0` at some index `m`, every later index `m + j` holds the same state:
the system is stationary for the rest of the integration. -/
theorem stationary_when_I_zero (y ystart : SIRState) (t h N beta gamma : ℚ)
    (m j : ℕ) (hy : y.2.1 = 0)
    (hm : (trajectory h N beta gamma ystart m).2.1 = 0) :
    deriv y t N beta gamma = (0, 0, 0) ∧
      trajectory h N beta gamma ystart (m + j) = trajectory h N beta gamma ystart m := by
  constructor
  · simp [deriv, Prod.ext_iff, hy]
  · induction j with
    | zero => rfl
    | succ j ih =>
        have : trajectory h N beta gamma ystart (m + (j + 1))
            = eulerStep h N beta gamma (((m + j : ℕ) : ℚ) * h)
                (trajectory h N beta gamma ystart (m + j)) := rfl
        rw [this, ih, eulerStep_fix _ _ _ _ _ _ hm]

/-- Witness for C7: state `(3, 0, 4)`, a start state `(5, 0, 0)` whose
trajectory has `I = 0` already at index 0, and two further steps. -/
theorem stationary_when_I_zero_witness :
    ((3 : ℚ), (0 : ℚ), (4 : ℚ)).2.1 = 0 ∧
      (trajectory 1 10 (1/5) (1/10) (5, 0, 0) 0).2.1 = 0 ∧
      (deriv (3, 0, 4) 7 10 (1/5) (1/10) = (0, 0, 0) ∧
        trajectory 1 10 (1/5) (1/10) (5, 0, 0) (0 + 2)
          = trajectory 1 10 (1/5) (1/10) (5, 0, 0) 0) :=
  ⟨rfl, rfl,
    stationary_when_I_zero (3, 0, 4) (5, 0, 0) 7 1 10 (1/5) (1/10) 0 2 rfl rfl⟩

/-- C8: the computation is deterministic — two runs from equal
configurations, step sizes and grid lengths produce identical output
sequences.  In this embedding the run is a pure function of its
configuration, mirroring the source's absence of any randomness. -/
theorem sirOutput_deterministic (c₁ c₂ : Config) (h₁ h₂ : ℚ) (n₁ n₂ : ℕ)
    (hc : c₁ = c₂) (hh : h₁ = h₂) (hn : n₁ = n₂) :
    sirOutput c₁ h₁ n₁ = sirOutput c₂ h₂ n₂ := by
  rw [hc, hh, hn]

/-- Witness for C8: two runs of the notebook configuration coincide. -/
theorem sirOutput_deterministic_witness :
    sirOutput notebookConfig 1 3 = sirOutput notebookConfig 1 3 :=
  sirOutput_deterministic notebookConfig notebookConfig 1 1 3 3 rfl rfl rfl

/-- C9: the right-hand side is autonomous and independent of the recovered
compartment — two calls of the derivative function agreeing on `S`, `I`,
`N`, `beta`, `gamma` but with arbitrary `t` and `R` return the same
triple. -/
theorem deriv_ignores_t_and_R (S I R R' t t' N beta gamma : ℚ) :
    deriv (S, I, R) t N beta gamma = deriv (S, I, R') t' N beta gamma := rfl

/-- C10: the divisions by `N` inside the derivative function cannot raise:
under `N ≠ 0` the checked variant (which returns `none` exactly when a
division by zero would occur) agrees with the total one, so the
division-by-zero branch is unreachable under the spec's precondition. -/
theorem derivChecked_eq_some_of_N_ne_zero (y : SIRState) (t N beta gamma : ℚ)
    (hN : N ≠ 0) :
    derivChecked y t N beta gamma = some (deriv y t N beta gamma) := by
  simp [derivChecked, hN]

/-- Witness for C10 at the notebook state and parameters. -/
theorem derivChecked_eq_some_witness :
    (1000 : ℚ) ≠ 0 ∧
      derivChecked (999, 1, 0) 0 1000 (1/5) (1/10)
        = some (deriv (999, 1, 0) 0 1000 (1/5) (1/10)) :=
  ⟨by norm_num, derivChecked_eq_some_of_N_ne_zero (999, 1, 0) 0 1000 (1/5) (1/10) (by norm_num)⟩

end SIR
